import Mathlib

/-!
Verification of the pricing and margin accounting core of the nibiru
perpetual futures exchange (vpool bonding curve, reserve snapshot TWAP,
margin settlement).

The decimal engine is the cosmos sdk legacy Dec type: a fixed point
decimal with 18 fractional digits, stored as an arbitrary precision
integer of atto units (value times 10 to the 18).  Addition,
subtraction and multiplication by an integer are exact; Mul and Quo
divide the raw product by 10 to the 18 with round half to even applied
to the magnitude; QuoInt truncates toward zero.  Division by zero is a
Go runtime fault (big.Int panics); it is modelled by Option, none
standing for the fault.
-/

/-- One unit in atto (10 to the 18), the cosmos sdk Dec precision. -/
def UNIT : Int := 1000000000000000000

/-- Half of one unit in atto, the round half to even threshold. -/
def HALF_UNIT : Int := 500000000000000000

/-- A cosmos sdk Dec, represented by its raw atto integer. -/
abbrev Dec := Int

/-- chopPrecisionAndRound on a nonnegative raw integer: divide by UNIT
and round half to even, as the cosmos sdk decimal engine does. -/
def chopPrecisionAndRoundNonneg (d : Int) : Int :=
  let quo := d / UNIT
  let rem := d % UNIT
  if rem = 0 then quo
  else if rem < HALF_UNIT then quo
  else if HALF_UNIT < rem then quo + 1
  else if quo % 2 = 0 then quo else quo + 1

/-- chopPrecisionAndRound: the rounding is applied to the magnitude and
the sign restored, as in the cosmos sdk source. -/
def chopPrecisionAndRound (d : Int) : Int :=
  if d < 0 then -(chopPrecisionAndRoundNonneg (-d)) else chopPrecisionAndRoundNonneg d

/-- sdk.NewDec: the Dec holding the integer n. -/
def Dec.ofInt (n : Int) : Dec := n * UNIT

/-- Dec.MulInt64: multiplication by an integer, exact. -/
def Dec.mulInt (a : Dec) (n : Int) : Dec := a * n

/-- Dec.Mul: multiply raw values, then divide by UNIT rounding half to even. -/
def Dec.mul (a b : Dec) : Dec := chopPrecisionAndRound (a * b)

/-- Dec.Quo with a divisor already known to be nonzero: multiply the
numerator by UNIT twice, truncating big integer division, then chop one
UNIT back off with round half to even — exactly the cosmos sdk Quo. -/
def Dec.quoUnsafe (a b : Dec) : Dec := chopPrecisionAndRound ((a * UNIT * UNIT).tdiv b)

/-- Dec.Quo: none models the Go division by zero runtime fault. -/
def Dec.quo (a b : Dec) : Option Dec :=
  if b = 0 then none else some (Dec.quoUnsafe a b)

/-- Dec.QuoInt64: truncating division of the raw value by an integer;
none models the Go division by zero runtime fault. -/
def Dec.quoInt (a : Dec) (n : Int) : Option Dec :=
  if n = 0 then none else some (a.tdiv n)

/-- Truncating (round toward zero) Dec division at 18 fractional
digits, with a divisor known to be nonzero.  This is the division the
spec text of section 4.1 describes; it is used to compare the spec
wording against the behavior the repository tests pin down. -/
def Dec.quoTruncUnsafe (a b : Dec) : Dec := (a * UNIT).tdiv b

/-- Decidable equality for Except results, so that concrete runs of the
embedded functions can be checked by evaluation. -/
instance {ε α : Type} [DecidableEq ε] [DecidableEq α] : DecidableEq (Except ε α) := fun x y =>
  match x, y with
  | .ok a, .ok b => decidable_of_iff (a = b) (by simp)
  | .ok _, .error _ => isFalse (by simp)
  | .error _, .ok _ => isFalse (by simp)
  | .error e, .error f => decidable_of_iff (e = f) (by simp)

/-- Direction enum: the sign convention for a reserve delta. -/
inductive Direction
  | addToPool
  | removeFromPool
  deriving DecidableEq, Repr

/-- Errors of the vpool component, from section 7 of the spec and the
error values the repository tests require.  divisionByZero models a Go
runtime fault, not a returned error value. -/
inductive VErr
  | poolNotFound
  | baseReserveAtZero
  | quoteReserveAtZero
  | snapshotCounterNotFound
  | snapshotNotFound
  | divisionByZero
  deriving DecidableEq, Repr

/-- VpoolConfig from section 3 of the spec. -/
structure VpoolConfig where
  tradeLimitRatio : Dec
  fluctuationLimitRatio : Dec
  maxOracleSpreadRatio : Dec
  maintenanceMarginRatio : Dec
  maxLeverage : Dec
  deriving DecidableEq, Repr

/-- Vpool from section 3 of the spec: two reserve balances, the cached
square root of their product, and the risk configuration. -/
structure Vpool where
  pair : String
  baseAssetReserve : Dec
  quoteAssetReserve : Dec
  sqrtDepth : Dec
  config : VpoolConfig
  deriving DecidableEq, Repr

/-- Modelled from the spec: the pool method GetQuoteAmountByBaseAmount
(section 4.1) is not part of the repository snapshot, only its keeper
caller and its tests are.  For AddToPool the quote amount is
quoteAssetReserve - k / (baseAssetReserve + baseAssetAmount); for
RemoveFromPool it is k / (baseAssetReserve - baseAssetAmount) -
quoteAssetReserve; it fails with BaseReserveAtZero when the amount
removed is at least the base reserve, and a zero amount returns zero
with no error.  The division is the sdk Dec Quo (round half to even),
which is what the repository test TestGetBaseAssetPrice requires of the
result 333.333333333333333333; the spec text saying the division
truncates is settled by claim C4. -/
def getQuoteAmountByBaseAmountRes (dir : Direction)
    (quoteAssetReserve baseAssetReserve baseAssetAmount : Dec) : Except VErr Dec :=
  if baseAssetAmount = 0 then .ok 0
  else
    let invariant := Dec.mul quoteAssetReserve baseAssetReserve
    match dir with
    | .addToPool =>
      match Dec.quo invariant (baseAssetReserve + baseAssetAmount) with
      | none => .error .divisionByZero
      | some quoteAfter => .ok (quoteAssetReserve - quoteAfter)
    | .removeFromPool =>
      if baseAssetReserve ≤ baseAssetAmount then .error .baseReserveAtZero
      else .ok (Dec.quoUnsafe invariant (baseAssetReserve - baseAssetAmount) - quoteAssetReserve)

/-- Modelled from the spec: the symmetric counterpart
GetBaseAmountByQuoteAmount of section 4.1, solving for the base side
delta, failing with QuoteReserveAtZero when the quote reserve would be
exhausted or over drained. -/
def getBaseAmountByQuoteAmountRes (dir : Direction)
    (quoteAssetReserve baseAssetReserve quoteAssetAmount : Dec) : Except VErr Dec :=
  if quoteAssetAmount = 0 then .ok 0
  else
    let invariant := Dec.mul quoteAssetReserve baseAssetReserve
    match dir with
    | .addToPool =>
      match Dec.quo invariant (quoteAssetReserve + quoteAssetAmount) with
      | none => .error .divisionByZero
      | some baseAfter => .ok (baseAssetReserve - baseAfter)
    | .removeFromPool =>
      if quoteAssetReserve ≤ quoteAssetAmount then .error .quoteReserveAtZero
      else .ok (Dec.quoUnsafe invariant (quoteAssetReserve - quoteAssetAmount) - baseAssetReserve)

/-- The pool method GetQuoteAmountByBaseAmount applied to the live pool
reserves. -/
def GetQuoteAmountByBaseAmount (pool : Vpool) (dir : Direction) (baseAssetAmount : Dec) :
    Except VErr Dec :=
  getQuoteAmountByBaseAmountRes dir pool.quoteAssetReserve pool.baseAssetReserve baseAssetAmount

/-- The pool method GetBaseAmountByQuoteAmount applied to the live pool
reserves. -/
def GetBaseAmountByQuoteAmount (pool : Vpool) (dir : Direction) (quoteAssetAmount : Dec) :
    Except VErr Dec :=
  getBaseAmountByQuoteAmountRes dir pool.quoteAssetReserve pool.baseAssetReserve quoteAssetAmount

/-- Follows the spec words of section 4.1 for claim C4: the AddToPool
quote amount computed with truncating (round toward zero) division, as
the sentence about intermediate division describes. -/
def getQuoteAmountByBaseAmountSpecTrunc
    (quoteAssetReserve baseAssetReserve baseAssetAmount : Dec) : Except VErr Dec :=
  if baseAssetAmount = 0 then .ok 0
  else
    let invariant := Dec.mul quoteAssetReserve baseAssetReserve
    if baseAssetReserve + baseAssetAmount = 0 then .error .divisionByZero
    else .ok (quoteAssetReserve - Dec.quoTruncUnsafe invariant (baseAssetReserve + baseAssetAmount))

/-- Modelled from the spec: HasEnoughQuoteReserve (section 4.1) is not
part of the repository snapshot, only its test is.  True iff the amount
is at most quoteAssetReserve times tradeLimitRatio, boundary inclusive. -/
def HasEnoughQuoteReserve (pool : Vpool) (amount : Dec) : Bool :=
  amount ≤ Dec.mul pool.quoteAssetReserve pool.config.tradeLimitRatio

/-- The keeper pool store for retrieving a pool by pair, one entry per
token pair string. -/
def PoolStore := String → Option Vpool

/-- GetSpotPrice from src/x/vpool/keeper/prices.go: the quote reserve
divided by the base reserve of the stored pool, PoolNotFound when the
pair is unknown.  The unguarded Quo panics when the base reserve is
zero, modelled by divisionByZero. -/
def getSpotPrice (store : PoolStore) (pair : String) : Except VErr Dec :=
  match store pair with
  | none => .error .poolNotFound
  | some pool =>
    match Dec.quo pool.quoteAssetReserve pool.baseAssetReserve with
    | none => .error .divisionByZero
    | some p => .ok p

/-- GetBaseAssetPrice from src/x/vpool/keeper/prices.go: look the pool
up and delegate to GetQuoteAmountByBaseAmount. -/
def GetBaseAssetPrice (store : PoolStore) (pair : String) (dir : Direction)
    (baseAssetAmount : Dec) : Except VErr Dec :=
  match store pair with
  | none => .error .poolNotFound
  | some pool => GetQuoteAmountByBaseAmount pool dir baseAssetAmount

/-- ReserveSnapshot from section 3 of the spec and the vpool types. -/
structure ReserveSnapshot where
  quoteAssetReserve : Dec
  baseAssetReserve : Dec
  timestampMs : Int
  blockNumber : Int
  deriving DecidableEq, Repr

/-- The per pair snapshot state read by calcTwap: the latest counter
(none when the pair was never initialized) and the snapshot stored
under each counter. -/
structure SnapshotStore where
  counter : Option Nat
  snapshots : Nat → Option ReserveSnapshot

/-- TwapCalcOption enum: which price definition to average. -/
inductive TwapCalcOption
  | spot
  | quoteAssetSwap
  | baseAssetSwap
  deriving DecidableEq, Repr

/-- snapshotPriceOptions from the keeper: the option, direction and
asset amount with which each snapshot price is derived. -/
structure SnapshotPriceOptions where
  twapCalcOption : TwapCalcOption
  direction : Direction
  assetAmount : Dec

/-- Modelled from the spec: getPriceWithSnapshot is not part of the
repository snapshot, only its caller calcTwap is.  Section 4.3 step 3a:
Spot is quoteReserve / baseReserve; QuoteAssetSwap and BaseAssetSwap
apply the section 4.1 swap formulas to the snapshot reserves with the
given direction and amount. -/
def getPriceWithSnapshot (snap : ReserveSnapshot) (opts : SnapshotPriceOptions) :
    Except VErr Dec :=
  match opts.twapCalcOption with
  | .spot =>
    match Dec.quo snap.quoteAssetReserve snap.baseAssetReserve with
    | none => .error .divisionByZero
    | some p => .ok p
  | .quoteAssetSwap =>
    getBaseAmountByQuoteAmountRes opts.direction snap.quoteAssetReserve snap.baseAssetReserve
      opts.assetAmount
  | .baseAssetSwap =>
    getQuoteAmountByBaseAmountRes opts.direction snap.quoteAssetReserve snap.baseAssetReserve
      opts.assetAmount

/-- The loop of calcTwap (src/x/vpool/keeper/prices.go lines 228 to
264): walk the counters downward accumulating price times elapsed
milliseconds and the elapsed milliseconds, stopping after processing a
snapshot at or before the lower limit, or when counter zero has been
processed. -/
def twapLoop (store : SnapshotStore) (lowerLimitTimestampMs : Int)
    (opts : SnapshotPriceOptions) :
    Nat → Int → Dec → Int → Except VErr (Dec × Int)
  | c, prevTimestampMs, cumulativePrice, cumulativePeriodMs =>
    match store.snapshots c with
    | none => .error .snapshotNotFound
    | some currentSnapshot =>
      match getPriceWithSnapshot currentSnapshot opts with
      | .error e => .error e
      | .ok currentPrice =>
        let timeElapsedMs : Int :=
          if currentSnapshot.timestampMs ≤ lowerLimitTimestampMs then
            prevTimestampMs - lowerLimitTimestampMs
          else prevTimestampMs - currentSnapshot.timestampMs
        let cumulativePrice2 := cumulativePrice + Dec.mulInt currentPrice timeElapsedMs
        let cumulativePeriodMs2 := cumulativePeriodMs + timeElapsedMs
        if currentSnapshot.timestampMs ≤ lowerLimitTimestampMs then
          .ok (cumulativePrice2, cumulativePeriodMs2)
        else
          match c with
          | 0 => .ok (cumulativePrice2, cumulativePeriodMs2)
          | Nat.succ c2 =>
            twapLoop store lowerLimitTimestampMs opts c2 currentSnapshot.timestampMs
              cumulativePrice2 cumulativePeriodMs2

/-- calcTwap from src/x/vpool/keeper/prices.go: lower limit is block
time minus the lookback interval (both in milliseconds here, matching
UnixMilli), the walk starts at the latest snapshot counter, and the
result is the cumulative price divided by the cumulative period with
the truncating QuoInt64.  divisionByZero models the Go runtime fault
of that final division when the cumulative period is zero. -/
def calcTwap (store : SnapshotStore) (blockTimeMs : Int) (opts : SnapshotPriceOptions)
    (lookbackIntervalMs : Int) : Except VErr Dec :=
  let lowerLimitTimestampMs := blockTimeMs - lookbackIntervalMs
  match store.counter with
  | none => .error .snapshotCounterNotFound
  | some latestSnapshotCounter =>
    match twapLoop store lowerLimitTimestampMs opts latestSnapshotCounter blockTimeMs 0 0 with
    | .error e => .error e
    | .ok (cumulativePrice, cumulativePeriodMs) =>
      match Dec.quoInt cumulativePrice cumulativePeriodMs with
      | none => .error .divisionByZero
      | some p => .ok p

/-- Follows the spec words of section 4.3 for claim C1: the list of
(price, elapsed milliseconds) pairs of the visited snapshots, walking
from a counter downward.  previousTimestamp starts at the block time
and becomes the visited snapshot timestamp after each non clipped
iteration; a snapshot at or before the lower bound contributes
previousTimestamp minus the lower bound and ends the walk; otherwise it
contributes previousTimestamp minus its own timestamp. -/
def twapWalkDescribed (store : SnapshotStore) (opts : SnapshotPriceOptions)
    (lowerBound : Int) : Nat → Int → Except VErr (List (Dec × Int))
  | c, previousTimestamp =>
    match store.snapshots c with
    | none => .error .snapshotNotFound
    | some snap =>
      match getPriceWithSnapshot snap opts with
      | .error e => .error e
      | .ok price =>
        if snap.timestampMs ≤ lowerBound then
          .ok [(price, previousTimestamp - lowerBound)]
        else
          match c with
          | 0 => .ok [(price, previousTimestamp - snap.timestampMs)]
          | Nat.succ c2 =>
            match twapWalkDescribed store opts lowerBound c2 snap.timestampMs with
            | .error e => .error e
            | .ok rest => .ok ((price, previousTimestamp - snap.timestampMs) :: rest)

/-- Total elapsed milliseconds of a walk. -/
def sumElapsed (l : List (Dec × Int)) : Int := (l.map Prod.snd).sum

/-- Sum of price times elapsed milliseconds of a walk. -/
def sumWeighted (l : List (Dec × Int)) : Dec :=
  (l.map (fun pe => Dec.mulInt pe.1 pe.2)).sum

/-- Position from section 3 of the spec and the perp types: signed
size, margin, and the cumulative premium fraction at last update. -/
structure Position where
  size : Dec
  margin : Dec
  lastUpdateCumulativePremiumFraction : Dec
  deriving DecidableEq, Repr

/-- MarginCalcResult from section 3 of the spec: the result of a
remaining margin computation. -/
structure MarginCalcResult where
  margin : Dec
  badDebt : Dec
  fundingPayment : Dec
  latestCumulativePremiumFraction : Dec
  deriving DecidableEq, Repr

/-- Errors of the margin engine message handlers, one constructor per
distinct early return of src/unnamed/part_001. -/
inductive PerpErr
  | invalidSender
  | invalidMarginDenom
  | nonPositiveMargin
  | invalidPair
  | pairNotFound
  | positionNotFound
  | remainMarginErr
  | hasBadDebt
  | freeCollateralErr
  | insufficientFreeCollateral
  | bankSendFailed
  deriving DecidableEq, Repr

/-- The fields of MsgRemoveMargin that the handler inspects.  The
bech32 sender address and the token pair string are opaque here; only
whether they parse is observable, so they are carried as flags.
marginAmount is the sdk.Int amount of the margin coin, and
marginDenomIsStable is whether its denom equals the stable denom. -/
structure RemoveMarginMsg where
  senderValid : Bool
  marginDenomIsStable : Bool
  marginAmount : Int
  tokenPairValid : Bool
  deriving DecidableEq, Repr

/-- The collaborators RemoveMargin calls that are not part of the
repository snapshot (spec sections 4.4 and 6): the vpool existence
check, CalcRemainMarginWithFundingPayment, calcFreeCollateral, and the
bank transfer from the vault, injected as capabilities. -/
structure PerpDeps where
  vpoolExists : Bool
  calcRemainMarginWithFundingPayment : Position → Dec → Except Unit MarginCalcResult
  calcFreeCollateral : Position → Dec → Except Unit Int
  bankSendSucceeds : Bool

/-- The response of a successful RemoveMargin. -/
structure RemoveMarginResponse where
  marginOutAmount : Int
  fundingPayment : Dec
  deriving DecidableEq, Repr

/-- RemoveMargin from src/unnamed/part_001, lines 74 to 153, with the
position store for the one (pair, trader) key threaded through: the
validations in source order, the remaining margin computation with the
negated amount as margin delta, the bad debt then free collateral
checks, and only then the store write followed by the bank transfer. -/
def removeMarginHandler (deps : PerpDeps) (msg : RemoveMarginMsg)
    (store : Option Position) :
    Except PerpErr RemoveMarginResponse × Option Position :=
  if ¬ msg.senderValid then (.error .invalidSender, store)
  else if ¬ msg.marginDenomIsStable then (.error .invalidMarginDenom, store)
  else if msg.marginAmount ≤ 0 then (.error .nonPositiveMargin, store)
  else if ¬ msg.tokenPairValid then (.error .invalidPair, store)
  else if ¬ deps.vpoolExists then (.error .pairNotFound, store)
  else
    match store with
    | none => (.error .positionNotFound, store)
    | some position =>
      let marginDelta := Dec.ofInt (-msg.marginAmount)
      match deps.calcRemainMarginWithFundingPayment position marginDelta with
      | .error _ => (.error .remainMarginErr, store)
      | .ok remaining =>
        let position2 : Position :=
          { position with
              margin := remaining.margin,
              lastUpdateCumulativePremiumFraction :=
                remaining.latestCumulativePremiumFraction }
        if ¬ (remaining.badDebt = 0) then (.error .hasBadDebt, store)
        else
          match deps.calcFreeCollateral position2 remaining.fundingPayment with
          | .error _ => (.error .freeCollateralErr, store)
          | .ok freeCollateral =>
            if freeCollateral < 0 then (.error .insufficientFreeCollateral, store)
            else
              let store2 := some position2
              if ¬ deps.bankSendSucceeds then (.error .bankSendFailed, store2)
              else (.ok ⟨msg.marginAmount, remaining.fundingPayment⟩, store2)

/-- Modelled from the spec: sections 5 and 6 — a message executes
atomically against the ledger, so when the handler returns an error the
ledger layer discards its writes and the stored state is unchanged. -/
def removeMargin (deps : PerpDeps) (msg : RemoveMarginMsg) (store : Option Position) :
    Except PerpErr RemoveMarginResponse × Option Position :=
  match removeMarginHandler deps msg store with
  | (.ok r, store2) => (.ok r, store2)
  | (.error e, _) => (.error e, store)

/-- Modelled from the spec: CalcRemainMarginWithFundingPayment
(section 4.4) is not part of the repository snapshot.  The funding
accrued since the position last update is the premium fraction
difference times the position size; it and the margin delta are applied
to the margin, and a negative result becomes bad debt with the margin
floored at zero.  The latest cumulative premium fraction is an input
read from state. -/
def calcRemainMarginWithFundingPayment (latestCumulativePremiumFraction : Dec)
    (p : Position) (marginDelta : Dec) : MarginCalcResult :=
  let fundingPayment :=
    Dec.mul (latestCumulativePremiumFraction - p.lastUpdateCumulativePremiumFraction) p.size
  let remainingMargin := p.margin + marginDelta - fundingPayment
  if remainingMargin < 0 then
    ⟨0, -remainingMargin, fundingPayment, latestCumulativePremiumFraction⟩
  else
    ⟨remainingMargin, 0, fundingPayment, latestCumulativePremiumFraction⟩

/-- The possible outcomes of GetMarginRatio: a value, a returned error,
the deliberate halt on a zero size position, or the runtime fault of
dividing by a zero notional.  The two halt outcomes are kept distinct
so that reachability of the zero size halt can be stated. -/
inductive MarginRatioResult
  | ok (ratio : Dec)
  | err
  | haltZeroSize
  | haltDivByZero
  deriving DecidableEq, Repr

/-- The collaborators GetMarginRatio calls that are not part of the
repository snapshot, injected as capabilities. -/
structure MarginRatioDeps where
  getPreferencePositionNotionalAndUnrealizedPnL : Position → Except Unit (Dec × Dec)
  calcRemainMarginWithFundingPayment : Position → Dec → Except Unit MarginCalcResult

/-- GetMarginRatio from src/unnamed/part_001, lines 156 to 183: a zero
size position halts processing (the Go panic), otherwise the preferred
(unrealized PnL, notional) pair is fetched, the remaining margin is
recomputed with the unrealized PnL as margin delta, and the ratio is
(margin - badDebt) / notional. -/
def GetMarginRatio (deps : MarginRatioDeps) (position : Position) : MarginRatioResult :=
  if position.size = 0 then .haltZeroSize
  else
    match deps.getPreferencePositionNotionalAndUnrealizedPnL position with
    | .error _ => .err
    | .ok (unrealizedPnL, positionNotional) =>
      match deps.calcRemainMarginWithFundingPayment position unrealizedPnL with
      | .error _ => .err
      | .ok remaining =>
        match Dec.quo (remaining.margin - remaining.badDebt) positionNotional with
        | none => .haltDivByZero
        | some r => .ok r

/-- A unit valued VpoolConfig used where the configuration is irrelevant. -/
def unitConfig : VpoolConfig := ⟨UNIT, UNIT, UNIT, UNIT, UNIT⟩

/-- The pool of concrete scenarios 2 and 3: base 1000, quote 1000. -/
def pool1000 : Vpool :=
  ⟨"btc:nusd", Dec.ofInt 1000, Dec.ofInt 1000, Dec.ofInt 1000, unitConfig⟩

/-- A pool store holding pool1000 under its pair. -/
def poolStore1000 : PoolStore :=
  fun p => if p = "btc:nusd" then some pool1000 else none

/-- The pool of concrete scenario 1: quote 40000, base 1. -/
def pool40000 : Vpool :=
  ⟨"btc:nusd", Dec.ofInt 1, Dec.ofInt 40000, Dec.ofInt 200, unitConfig⟩

/-- A pool store holding pool40000 under its pair. -/
def poolStore40000 : PoolStore :=
  fun p => if p = "btc:nusd" then some pool40000 else none

/-- The pool of the boundary test TestPoolHasEnoughQuoteReserve:
reserves ten million, trade limit ratio 0.9. -/
def pool10M : Vpool :=
  ⟨"BTC:NUSD", Dec.ofInt 10000000, Dec.ofInt 10000000, Dec.ofInt 10000000,
    ⟨900000000000000000, UNIT, UNIT, UNIT, UNIT⟩⟩

/-- The snapshot history of concrete scenario 4 (and TestCalcTwap):
snapshots 90/10 at 10ms, 85/10 at 20ms, 95/10 at 30ms under counters 1
to 3, the empty pool creation snapshot under counter 0, counter 3
latest — exactly the state the repository test builds. -/
def twapStore : SnapshotStore where
  counter := some 3
  snapshots := fun c =>
    match c with
    | 0 => some ⟨0, 0, 0, 0⟩
    | 1 => some ⟨Dec.ofInt 90, Dec.ofInt 10, 10, 1⟩
    | 2 => some ⟨Dec.ofInt 85, Dec.ofInt 10, 20, 2⟩
    | 3 => some ⟨Dec.ofInt 95, Dec.ofInt 10, 30, 3⟩
    | _ => none

/-- Spot price options (direction and amount are ignored for Spot). -/
def spotOpts : SnapshotPriceOptions := ⟨.spot, .addToPool, 0⟩

/-- A single snapshot history: counter 0 with one snapshot under it. -/
def singleSnapshotStore (snap : ReserveSnapshot) : SnapshotStore where
  counter := some 0
  snapshots := fun c => if c = 0 then some snap else none

/-- The concrete single snapshot history 90/10 at 10ms. -/
def singleStore90 : SnapshotStore := singleSnapshotStore ⟨Dec.ofInt 90, Dec.ofInt 10, 10, 1⟩

/-- A two snapshot history whose timestamps decrease with the counter
(31ms under counter 0, 25ms under counter 1), violating the
non decreasing timestamp invariant of section 4.2. -/
def nonMonoStore : SnapshotStore where
  counter := some 1
  snapshots := fun c =>
    match c with
    | 0 => some ⟨Dec.ofInt 10, Dec.ofInt 10, 30, 1⟩
    | 1 => some ⟨Dec.ofInt 10, Dec.ofInt 10, 25, 2⟩
    | _ => none

/-- Concrete collaborators for RemoveMargin: the vpool exists, the
remaining margin computation is the spec modelled one with a zero
latest cumulative premium fraction, free collateral is reported as
minus one, and the bank transfer succeeds. -/
def exampleDeps : PerpDeps where
  vpoolExists := true
  calcRemainMarginWithFundingPayment :=
    fun p delta => .ok (calcRemainMarginWithFundingPayment 0 p delta)
  calcFreeCollateral := fun _ _ => .ok (-1)
  bankSendSucceeds := true

/-- A valid RemoveMargin message asking for 10 units of margin back. -/
def exampleMsg : RemoveMarginMsg := ⟨true, true, 10, true⟩

/-- A position of size 1 holding 5 units of margin. -/
def examplePosition : Position := ⟨Dec.ofInt 1, Dec.ofInt 5, 0⟩

/-- Concrete collaborators for GetMarginRatio: zero unrealized PnL
with a notional of one, and the spec modelled remaining margin
computation with a zero latest cumulative premium fraction. -/
def exampleMarginRatioDeps : MarginRatioDeps where
  getPreferencePositionNotionalAndUnrealizedPnL := fun _ => .ok (0, Dec.ofInt 1)
  calcRemainMarginWithFundingPayment :=
    fun p delta => .ok (calcRemainMarginWithFundingPayment 0 p delta)

/-- C2: for the concrete snapshot history 90/10 at 10ms, 85/10 at 20ms,
95/10 at 30ms (counters 1 to 3, with the pool creation snapshot under
counter 0 exactly as TestCalcTwap builds the state), current block time
30ms, lookback interval 20ms and the Spot option, calcTwap returns
exactly 8.75 (raw atto value 8750000000000000000). -/
theorem calcTwap_spot_concrete_scenario :
    calcTwap twapStore 30 spotOpts 20 = .ok 8750000000000000000 := by decide

/-- C4 counterexample: with the truncating (round toward zero) division
the claim describes, the AddToPool quote amount on the 1000/1000 pool
for base amount 500 is 333.333333333333333334, while the repository
test TestGetBaseAssetPrice pins the implemented result (sdk Dec Quo,
round half to even) to 333.333333333333333333 — the two differ, so the
claim that the truncating formula yields 333.333333333333333333 is
false. -/
theorem getBaseAssetPrice_trunc_counterexample :
    getQuoteAmountByBaseAmountSpecTrunc (Dec.ofInt 1000) (Dec.ofInt 1000) (Dec.ofInt 500) =
      .ok 333333333333333333334 ∧
    GetBaseAssetPrice poolStore1000 "btc:nusd" .addToPool (Dec.ofInt 500) =
      .ok 333333333333333333333 ∧
    (333333333333333333334 : Dec) ≠ 333333333333333333333 := by decide

/-- C4 amended: for every stored pool and direction AddToPool,
getBaseAssetPrice returns quoteAssetReserve - k / (baseAssetReserve +
baseAssetAmount) where the division is the sdk Dec Quo (18 fractional
digits, round half to even — not truncating) for every nonzero amount,
a zero amount returns zero directly, and in particular on the
1000/1000 pool with amount 500 the result is exactly
333.333333333333333333. -/
theorem getBaseAssetPrice_addToPool_formula
    (store : PoolStore) (pair : String) (pool : Vpool) (a : Dec)
    (hp : store pair = some pool) (ha : a ≠ 0)
    (hden : pool.baseAssetReserve + a ≠ 0) :
    GetBaseAssetPrice store pair .addToPool a =
      .ok (pool.quoteAssetReserve -
        Dec.quoUnsafe (Dec.mul pool.quoteAssetReserve pool.baseAssetReserve)
          (pool.baseAssetReserve + a)) ∧
    (∀ dir, GetBaseAssetPrice store pair dir 0 = .ok 0) ∧
    GetBaseAssetPrice poolStore1000 "btc:nusd" .addToPool (Dec.ofInt 500) =
      .ok 333333333333333333333 := by
  refine ⟨?_, ?_, by decide⟩
  · simp [GetBaseAssetPrice, hp, GetQuoteAmountByBaseAmount,
      getQuoteAmountByBaseAmountRes, ha, Dec.quo, hden]
  · intro dir
    simp [GetBaseAssetPrice, hp, GetQuoteAmountByBaseAmount,
      getQuoteAmountByBaseAmountRes]

/-- C4 amended, witness: the formula conjunct applied to the concrete
1000/1000 pool and amount 500. -/
theorem getBaseAssetPrice_addToPool_formula_witness :
    GetBaseAssetPrice poolStore1000 "btc:nusd" .addToPool (Dec.ofInt 500) =
      .ok (pool1000.quoteAssetReserve -
        Dec.quoUnsafe (Dec.mul pool1000.quoteAssetReserve pool1000.baseAssetReserve)
          (pool1000.baseAssetReserve + Dec.ofInt 500)) :=
  (getBaseAssetPrice_addToPool_formula poolStore1000 "btc:nusd" pool1000 (Dec.ofInt 500)
    (by decide) (by decide) (by decide)).1

/-- C5: for every stored pool with a positive base reserve,
getBaseAssetPrice with direction RemoveFromPool fails with
BaseReserveAtZero whenever the base amount is at least the base
reserve; a zero amount returns zero with no error in either direction;
and in particular removing 1000 base from the 1000/1000 pool fails with
BaseReserveAtZero. -/
theorem getBaseAssetPrice_removal_guard
    (store : PoolStore) (pair : String) (pool : Vpool)
    (hp : store pair = some pool) :
    (∀ a : Dec, 0 < pool.baseAssetReserve → pool.baseAssetReserve ≤ a →
      GetBaseAssetPrice store pair .removeFromPool a = .error .baseReserveAtZero) ∧
    (∀ dir, GetBaseAssetPrice store pair dir 0 = .ok 0) ∧
    GetBaseAssetPrice poolStore1000 "btc:nusd" .removeFromPool (Dec.ofInt 1000) =
      .error .baseReserveAtZero := by
  refine ⟨?_, ?_, by decide⟩
  · intro a hpos hle
    have ha : a ≠ 0 := (lt_of_lt_of_le hpos hle).ne'
    simp [GetBaseAssetPrice, hp, GetQuoteAmountByBaseAmount,
      getQuoteAmountByBaseAmountRes, ha, hle]
  · intro dir
    simp [GetBaseAssetPrice, hp, GetQuoteAmountByBaseAmount,
      getQuoteAmountByBaseAmountRes]

/-- C5 witness: the guard conjunct applied to the 1000/1000 pool with
amount 1000. -/
theorem getBaseAssetPrice_removal_guard_witness :
    GetBaseAssetPrice poolStore1000 "btc:nusd" .removeFromPool (Dec.ofInt 1000) =
      .error .baseReserveAtZero :=
  (getBaseAssetPrice_removal_guard poolStore1000 "btc:nusd" pool1000 (by decide)).1
    (Dec.ofInt 1000) (by decide) (by decide)

/-- C7: for every known pair with a nonzero base reserve, getSpotPrice
returns the quote reserve divided by the base reserve of the stored
pool (sdk Dec Quo); for every unknown pair it fails with PoolNotFound;
and in particular a pool with quote 40000 and base 1 yields 40000. -/
theorem getSpotPrice_spec :
    (∀ (store : PoolStore) (pair : String) (pool : Vpool),
      store pair = some pool → pool.baseAssetReserve ≠ 0 →
      getSpotPrice store pair =
        .ok (Dec.quoUnsafe pool.quoteAssetReserve pool.baseAssetReserve)) ∧
    (∀ (store : PoolStore) (pair : String),
      store pair = none → getSpotPrice store pair = .error .poolNotFound) ∧
    getSpotPrice poolStore40000 "btc:nusd" = .ok (Dec.ofInt 40000) := by
  refine ⟨?_, ?_, by decide⟩
  · intro store pair pool hp hb
    simp [getSpotPrice, hp, Dec.quo, hb]
  · intro store pair hp
    simp [getSpotPrice, hp]

/-- C7 witness: the known pair conjunct applied to the 40000/1 pool
(and the unknown pair conjunct at a pair the store does not hold). -/
theorem getSpotPrice_spec_witness :
    getSpotPrice poolStore40000 "btc:nusd" =
      .ok (Dec.quoUnsafe pool40000.quoteAssetReserve pool40000.baseAssetReserve) ∧
    getSpotPrice poolStore40000 "eth:nusd" = .error .poolNotFound :=
  ⟨getSpotPrice_spec.1 poolStore40000 "btc:nusd" pool40000 (by decide) (by decide),
   getSpotPrice_spec.2.1 poolStore40000 "eth:nusd" (by decide)⟩

/-- C8: hasEnoughQuoteReserve is true exactly when the amount is at
most quoteAssetReserve times tradeLimitRatio; the boundary is
inclusive and every strictly greater amount yields false — checked
also at the values of TestPoolHasEnoughQuoteReserve (reserve ten
million, ratio 0.9: nine million is accepted, 9000001 is not). -/
theorem hasEnoughQuoteReserve_iff :
    (∀ (pool : Vpool) (amount : Dec),
      HasEnoughQuoteReserve pool amount = true ↔
      amount ≤ Dec.mul pool.quoteAssetReserve pool.config.tradeLimitRatio) ∧
    (∀ (pool : Vpool),
      HasEnoughQuoteReserve pool
        (Dec.mul pool.quoteAssetReserve pool.config.tradeLimitRatio) = true) ∧
    (∀ (pool : Vpool) (amount : Dec),
      Dec.mul pool.quoteAssetReserve pool.config.tradeLimitRatio < amount →
      HasEnoughQuoteReserve pool amount = false) ∧
    HasEnoughQuoteReserve pool10M (Dec.ofInt 9000000) = true ∧
    HasEnoughQuoteReserve pool10M (Dec.ofInt 9000000 + 1) = false := by
  refine ⟨?_, ?_, ?_, by decide, by decide⟩
  · intro pool amount
    simp [HasEnoughQuoteReserve]
  · intro pool
    simp [HasEnoughQuoteReserve]
  · intro pool amount h
    simp [HasEnoughQuoteReserve]
    exact h

/-- C8 witness: the strict part applied at the first amount past the
boundary of the TestPoolHasEnoughQuoteReserve pool. -/
theorem hasEnoughQuoteReserve_iff_witness :
    HasEnoughQuoteReserve pool10M (Dec.ofInt 9000001) = false :=
  hasEnoughQuoteReserve_iff.2.2.1 pool10M (Dec.ofInt 9000001) (by decide)

/-- C6 counterexample: the single snapshot history 90/10 at 10ms (spot
price 9) with block time 30ms and lookback interval 0ms does not
return the snapshot price: the elapsed time clipped at the window edge
is zero, so the final division of calcTwap divides by zero (a runtime
fault in the Go source).  The claim quantified over every lookback
interval, which fails at zero. -/
theorem calcTwap_single_snapshot_counterexample :
    calcTwap singleStore90 30 spotOpts 0 = .error .divisionByZero ∧
    calcTwap singleStore90 30 spotOpts 0 ≠ .ok (Dec.ofInt 9) := by decide

/-- C6 amended: for every snapshot history containing exactly one
snapshot whose price derivation succeeds, every strictly positive
lookback interval, and every block time strictly after the snapshot
timestamp, calcTwap returns exactly that single snapshot price (for
the Spot option, its quoteReserve / baseReserve). -/
theorem calcTwap_single_snapshot
    (snap : ReserveSnapshot) (blockTimeMs lookbackIntervalMs : Int)
    (opts : SnapshotPriceOptions) (price : Dec)
    (hprice : getPriceWithSnapshot snap opts = .ok price)
    (hlb : 0 < lookbackIntervalMs)
    (hts : snap.timestampMs < blockTimeMs) :
    calcTwap (singleSnapshotStore snap) blockTimeMs opts lookbackIntervalMs = .ok price := by
  by_cases hcl : snap.timestampMs ≤ blockTimeMs - lookbackIntervalMs
  · have he : lookbackIntervalMs ≠ 0 := hlb.ne'
    simp [calcTwap, singleSnapshotStore, twapLoop, hprice, hcl,
      Dec.quoInt, Dec.mulInt, he, Int.mul_tdiv_cancel _ he]
  · have he : blockTimeMs - snap.timestampMs ≠ 0 := by omega
    simp [calcTwap, singleSnapshotStore, twapLoop, hprice, hcl,
      Dec.quoInt, Dec.mulInt, he, Int.mul_tdiv_cancel _ he]

/-- C6 amended, witness: the 90/10 at 10ms single snapshot history with
block time 30ms and lookback 20ms yields the spot price 9. -/
theorem calcTwap_single_snapshot_witness :
    calcTwap (singleSnapshotStore ⟨Dec.ofInt 90, Dec.ofInt 10, 10, 1⟩) 30 spotOpts 20 =
      .ok (Dec.ofInt 9) :=
  calcTwap_single_snapshot ⟨Dec.ofInt 90, Dec.ofInt 10, 10, 1⟩ 30 20 spotOpts
    (Dec.ofInt 9) (by decide) (by decide) (by decide)

/-- Total elapsed time of a walk distributes over cons. -/
theorem sumElapsed_cons (p : Dec × Int) (l : List (Dec × Int)) :
    sumElapsed (p :: l) = p.2 + sumElapsed l := by
  simp [sumElapsed]

/-- The weighted sum of a walk distributes over cons. -/
theorem sumWeighted_cons (p : Dec × Int) (l : List (Dec × Int)) :
    sumWeighted (p :: l) = Dec.mulInt p.1 p.2 + sumWeighted l := by
  simp [sumWeighted]

/-- One non clipped step of the calcTwap loop at a positive counter:
the loop recurses with the snapshot timestamp as the new previous
timestamp and the accumulators advanced by the elapsed time. -/
theorem twapLoop_succ_notclip (store : SnapshotStore) (L : Int)
    (opts : SnapshotPriceOptions) (c2 : Nat) (prev : Int) (cumP : Dec) (cumMs : Int)
    (snap : ReserveSnapshot) (price : Dec)
    (hs : store.snapshots (c2 + 1) = some snap)
    (hp : getPriceWithSnapshot snap opts = .ok price)
    (hcl : ¬ snap.timestampMs ≤ L) :
    twapLoop store L opts (c2 + 1) prev cumP cumMs =
      twapLoop store L opts c2 snap.timestampMs
        (cumP + Dec.mulInt price (prev - snap.timestampMs))
        (cumMs + (prev - snap.timestampMs)) := by
  rw [twapLoop.eq_1]
  simp [hs, hp, hcl]

/-- The accumulator loop of calcTwap computes exactly the weighted and
total sums of the walk described by the spec, shifted by the incoming
accumulators. -/
theorem twapLoop_eq_twapWalkDescribed (store : SnapshotStore) (L : Int)
    (opts : SnapshotPriceOptions) :
    ∀ (c : Nat) (prev : Int) (pairs : List (Dec × Int)),
      twapWalkDescribed store opts L c prev = .ok pairs →
      ∀ (cumP : Dec) (cumMs : Int),
        twapLoop store L opts c prev cumP cumMs =
          .ok (cumP + sumWeighted pairs, cumMs + sumElapsed pairs) := by
  intro c
  induction c with
  | zero =>
    intro prev pairs hw cumP cumMs
    cases hs : store.snapshots 0 with
    | none => simp [twapWalkDescribed, hs] at hw
    | some snap =>
      cases hp : getPriceWithSnapshot snap opts with
      | error e => simp [twapWalkDescribed, hs, hp] at hw
      | ok price =>
        by_cases hcl : snap.timestampMs ≤ L
        · simp [twapWalkDescribed, hs, hp, hcl] at hw
          subst hw
          simp [twapLoop, hs, hp, hcl, sumWeighted_cons, sumElapsed_cons,
            sumWeighted, sumElapsed]
        · simp [twapWalkDescribed, hs, hp, hcl] at hw
          subst hw
          simp [twapLoop, hs, hp, hcl, sumWeighted_cons, sumElapsed_cons,
            sumWeighted, sumElapsed]
  | succ c2 ih =>
    intro prev pairs hw cumP cumMs
    cases hs : store.snapshots (c2 + 1) with
    | none => simp [twapWalkDescribed, hs] at hw
    | some snap =>
      cases hp : getPriceWithSnapshot snap opts with
      | error e => simp [twapWalkDescribed, hs, hp] at hw
      | ok price =>
        by_cases hcl : snap.timestampMs ≤ L
        · simp [twapWalkDescribed, hs, hp, hcl] at hw
          subst hw
          simp [twapLoop, hs, hp, hcl, sumWeighted_cons, sumElapsed_cons,
            sumWeighted, sumElapsed]
        · cases hrest : twapWalkDescribed store opts L c2 snap.timestampMs with
          | error e =>
            simp [twapWalkDescribed, hs, hp, hcl, hrest] at hw
          | ok rest =>
            simp [twapWalkDescribed, hs, hp, hcl, hrest] at hw
            subst hw
            have hrec := ih snap.timestampMs rest hrest
              (cumP + Dec.mulInt price (prev - snap.timestampMs))
              (cumMs + (prev - snap.timestampMs))
            rw [twapLoop_succ_notclip store L opts c2 prev cumP cumMs snap price hs hp hcl,
              hrec]
            simp only [sumWeighted_cons, sumElapsed_cons, Dec.mulInt, Except.ok.injEq,
              Prod.mk.injEq]
            constructor <;> ring

/-- C1: whenever the snapshot counter lookup succeeds and the walk the
spec describes (clipped elapsed time previousTimestamp - lowerBound for
a snapshot at or before the lower bound, previousTimestamp -
snapshot.timestamp otherwise, previousTimestamp starting at the block
time and becoming the snapshot timestamp after each non clipped
iteration, the walk stopping once a snapshot at or before the lower
bound has been processed) produces the visited (price, elapsed) pairs
with a nonzero total elapsed time, calcTwap returns the sum of price
times elapsed milliseconds divided by the total elapsed milliseconds. -/
theorem calcTwap_is_time_weighted_average
    (store : SnapshotStore) (blockTimeMs lookbackIntervalMs : Int)
    (opts : SnapshotPriceOptions) (latest : Nat) (pairs : List (Dec × Int))
    (hc : store.counter = some latest)
    (hw : twapWalkDescribed store opts (blockTimeMs - lookbackIntervalMs) latest blockTimeMs
      = .ok pairs)
    (hnz : sumElapsed pairs ≠ 0) :
    calcTwap store blockTimeMs opts lookbackIntervalMs =
      .ok ((sumWeighted pairs).tdiv (sumElapsed pairs)) := by
  have hloop := twapLoop_eq_twapWalkDescribed store (blockTimeMs - lookbackIntervalMs) opts
    latest blockTimeMs pairs hw 0 0
  simp [calcTwap, hc, hloop, Dec.quoInt, hnz]

/-- C1 witness: on the TestCalcTwap history the described walk visits
the three snapshots with elapsed times 0, 10 and 10 milliseconds, and
calcTwap equals the weighted sum divided by the total period. -/
theorem calcTwap_is_time_weighted_average_witness :
    twapWalkDescribed twapStore spotOpts (30 - 20) 3 30 =
      .ok [((9500000000000000000 : Dec), (0 : Int)), (8500000000000000000, 10),
        (9000000000000000000, 10)] ∧
    calcTwap twapStore 30 spotOpts 20 =
      .ok ((sumWeighted [((9500000000000000000 : Dec), (0 : Int)), (8500000000000000000, 10),
        (9000000000000000000, 10)]).tdiv
        (sumElapsed [((9500000000000000000 : Dec), (0 : Int)), (8500000000000000000, 10),
          (9000000000000000000, 10)])) :=
  ⟨by decide,
   calcTwap_is_time_weighted_average twapStore 30 20 spotOpts 3
     [((9500000000000000000 : Dec), (0 : Int)), (8500000000000000000, 10),
       (9000000000000000000, 10)]
     (by decide) (by decide) (by decide)⟩

/-- A clipped step of the calcTwap loop: a snapshot at or before the
lower limit contributes the time from the previous timestamp back to
the lower limit and ends the walk. -/
theorem twapLoop_clip (store : SnapshotStore) (L : Int) (opts : SnapshotPriceOptions)
    (c : Nat) (prev : Int) (cumP : Dec) (cumMs : Int)
    (snap : ReserveSnapshot) (price : Dec)
    (hs : store.snapshots c = some snap)
    (hp : getPriceWithSnapshot snap opts = .ok price)
    (hcl : snap.timestampMs ≤ L) :
    twapLoop store L opts c prev cumP cumMs =
      .ok (cumP + Dec.mulInt price (prev - L), cumMs + (prev - L)) := by
  rw [twapLoop.eq_1]
  simp [hs, hp, hcl]

/-- The final step of the calcTwap loop at counter zero when the
snapshot is after the lower limit: the walk ends having consumed the
whole history. -/
theorem twapLoop_zero_notclip (store : SnapshotStore) (L : Int)
    (opts : SnapshotPriceOptions) (prev : Int) (cumP : Dec) (cumMs : Int)
    (snap : ReserveSnapshot) (price : Dec)
    (hs : store.snapshots 0 = some snap)
    (hp : getPriceWithSnapshot snap opts = .ok price)
    (hcl : ¬ snap.timestampMs ≤ L) :
    twapLoop store L opts 0 prev cumP cumMs =
      .ok (cumP + Dec.mulInt price (prev - snap.timestampMs),
        cumMs + (prev - snap.timestampMs)) := by
  rw [twapLoop.eq_1]
  simp [hs, hp, hcl]

/-- Once the calcTwap loop holds a strictly positive cumulative period,
it keeps one, provided the lower limit is strictly below the previous
timestamp, the snapshot under the current counter is not after the
previous timestamp, and timestamps do not decrease along counters. -/
theorem twapLoop_period_stays_pos (store : SnapshotStore) (L : Int)
    (opts : SnapshotPriceOptions) (latest : Nat)
    (hmono : ∀ c c2 s s2, c ≤ c2 → c2 ≤ latest → store.snapshots c = some s →
      store.snapshots c2 = some s2 → s.timestampMs ≤ s2.timestampMs) :
    ∀ (c : Nat), c ≤ latest → ∀ (prev : Int) (cumP : Dec) (cumMs : Int),
      0 < cumMs → L < prev →
      (∀ s, store.snapshots c = some s → s.timestampMs ≤ prev) →
      ∀ cp cms, twapLoop store L opts c prev cumP cumMs = .ok (cp, cms) → 0 < cms := by
  intro c
  induction c with
  | zero =>
    intro _ prev cumP cumMs hcum hLp hbound cp cms hloop
    cases hs : store.snapshots 0 with
    | none => rw [twapLoop.eq_1] at hloop; simp [hs] at hloop
    | some snap =>
      cases hp : getPriceWithSnapshot snap opts with
      | error e => rw [twapLoop.eq_1] at hloop; simp [hs, hp] at hloop
      | ok price =>
        have hts := hbound snap hs
        by_cases hcl : snap.timestampMs ≤ L
        · rw [twapLoop_clip store L opts 0 prev cumP cumMs snap price hs hp hcl] at hloop
          simp only [Except.ok.injEq, Prod.mk.injEq] at hloop
          obtain ⟨-, h2⟩ := hloop
          omega
        · rw [twapLoop_zero_notclip store L opts prev cumP cumMs snap price hs hp hcl] at hloop
          simp only [Except.ok.injEq, Prod.mk.injEq] at hloop
          obtain ⟨-, h2⟩ := hloop
          omega
  | succ c2 ih =>
    intro hle prev cumP cumMs hcum hLp hbound cp cms hloop
    cases hs : store.snapshots (c2 + 1) with
    | none => rw [twapLoop.eq_1] at hloop; simp [hs] at hloop
    | some snap =>
      cases hp : getPriceWithSnapshot snap opts with
      | error e => rw [twapLoop.eq_1] at hloop; simp [hs, hp] at hloop
      | ok price =>
        have hts := hbound snap hs
        by_cases hcl : snap.timestampMs ≤ L
        · rw [twapLoop_clip store L opts (c2 + 1) prev cumP cumMs snap price hs hp hcl]
            at hloop
          simp only [Except.ok.injEq, Prod.mk.injEq] at hloop
          obtain ⟨-, h2⟩ := hloop
          omega
        · rw [twapLoop_succ_notclip store L opts c2 prev cumP cumMs snap price hs hp hcl]
            at hloop
          exact ih (by omega) snap.timestampMs _ _ (by omega) (by omega)
            (fun s2 hs2 => hmono c2 (c2 + 1) s2 snap (by omega) hle hs2 hs) cp cms hloop

/-- C10 counterexample: the hypotheses of the claim (snapshot counter
found, strictly positive lookback interval, latest snapshot strictly
before the block time) hold for nonMonoStore at block time 30 with
lookback 20, yet the loop accumulates a cumulative period of zero (the
out of order snapshot under counter 0 contributes minus five
milliseconds) and the final division of calcTwap divides by zero; the
claim needs the non decreasing timestamp invariant of section 4.2. -/
theorem calcTwap_period_counterexample :
    nonMonoStore.counter = some 1 ∧
    (0 : Int) < 20 ∧
    nonMonoStore.snapshots 1 = some ⟨Dec.ofInt 10, Dec.ofInt 10, 25, 2⟩ ∧
    (25 : Int) < 30 ∧
    twapLoop nonMonoStore (30 - 20) spotOpts 1 30 0 0 = .ok (0, 0) ∧
    calcTwap nonMonoStore 30 spotOpts 20 = .error .divisionByZero := by decide

/-- C10 amended: calcTwap performs its final division with no zero
divisor guard; for every call whose snapshot counter lookup succeeds,
whose lookback interval is strictly positive, whose latest snapshot is
strictly earlier than the block time, and whose history has non
decreasing timestamps along counters (the section 4.2 store
invariant, which the original claim omitted), the accumulated
cumulative period is strictly positive at that division, and calcTwap
returns the well defined quotient. -/
theorem calcTwap_period_positive
    (store : SnapshotStore) (blockTimeMs lookbackIntervalMs : Int)
    (opts : SnapshotPriceOptions) (latest : Nat) (snapLatest : ReserveSnapshot)
    (cp : Dec) (cms : Int)
    (hc : store.counter = some latest)
    (hlb : 0 < lookbackIntervalMs)
    (hlatest : store.snapshots latest = some snapLatest)
    (hts : snapLatest.timestampMs < blockTimeMs)
    (hmono : ∀ c c2 s s2, c ≤ c2 → c2 ≤ latest → store.snapshots c = some s →
      store.snapshots c2 = some s2 → s.timestampMs ≤ s2.timestampMs)
    (hloop : twapLoop store (blockTimeMs - lookbackIntervalMs) opts latest blockTimeMs 0 0
      = .ok (cp, cms)) :
    0 < cms ∧ calcTwap store blockTimeMs opts lookbackIntervalMs = .ok (cp.tdiv cms) := by
  have hpos : 0 < cms := by
    cases hp : getPriceWithSnapshot snapLatest opts with
    | error e => rw [twapLoop.eq_1] at hloop; simp [hlatest, hp] at hloop
    | ok price =>
      by_cases hcl : snapLatest.timestampMs ≤ blockTimeMs - lookbackIntervalMs
      · rw [twapLoop_clip store (blockTimeMs - lookbackIntervalMs) opts latest blockTimeMs
          0 0 snapLatest price hlatest hp hcl] at hloop
        simp only [Except.ok.injEq, Prod.mk.injEq] at hloop
        obtain ⟨-, h2⟩ := hloop
        omega
      · cases latest with
        | zero =>
          rw [twapLoop_zero_notclip store (blockTimeMs - lookbackIntervalMs) opts
            blockTimeMs 0 0 snapLatest price hlatest hp hcl] at hloop
          simp only [Except.ok.injEq, Prod.mk.injEq] at hloop
          obtain ⟨-, h2⟩ := hloop
          omega
        | succ c2 =>
          rw [twapLoop_succ_notclip store (blockTimeMs - lookbackIntervalMs) opts c2
            blockTimeMs 0 0 snapLatest price hlatest hp hcl] at hloop
          exact twapLoop_period_stays_pos store (blockTimeMs - lookbackIntervalMs) opts
            (c2 + 1) hmono c2 (by omega) snapLatest.timestampMs _ _ (by omega) (by omega)
            (fun s2 hs2 =>
              hmono c2 (c2 + 1) s2 snapLatest (by omega) (by omega) hs2 hlatest)
            cp cms hloop
  refine ⟨hpos, ?_⟩
  simp [calcTwap, hc, hloop, Dec.quoInt, hpos.ne']

/-- C10 amended, witness: on the monotone TestCalcTwap history at
block time 35 with lookback 24 the cumulative period at the division
is 24 milliseconds and calcTwap returns the quotient 213.5 / 24. -/
theorem calcTwap_period_positive_witness :
    (0 : Int) < 24 ∧
    calcTwap twapStore 35 spotOpts 24 = .ok ((213500000000000000000 : Dec).tdiv 24) :=
  calcTwap_period_positive twapStore 35 24 spotOpts 3 ⟨Dec.ofInt 95, Dec.ofInt 10, 30, 3⟩
    213500000000000000000 24 (by decide) (by decide) (by decide) (by decide)
    (by
      intro c c2 s s2 h1 h2 hs1 hs2
      interval_cases c2 <;> interval_cases c <;>
        simp only [twapStore, Option.some.injEq] at hs1 hs2 <;>
        subst hs1 <;> subst hs2 <;> decide)
    (by decide)

/-- C3: for every RemoveMargin call with a valid trader, pair and
denomination, a strictly positive amount and an existing position: a
nonzero bad debt from the remaining margin computation with the
negated amount as margin delta fails the call with the bad debt error;
a negative post removal free collateral fails it with the insufficient
free collateral error; in both specified failure paths even the raw
handler has not yet written the position (the store write comes after
both checks in the source); and every failing call leaves the stored
position byte for byte unchanged (message execution is atomic, spec
sections 5 and 6). -/
theorem removeMargin_error_behavior
    (deps : PerpDeps) (msg : RemoveMarginMsg) (position : Position)
    (hsv : msg.senderValid = true)
    (hd : msg.marginDenomIsStable = true)
    (ha : 0 < msg.marginAmount)
    (hpv : msg.tokenPairValid = true)
    (hv : deps.vpoolExists = true) :
    (∀ remaining,
      deps.calcRemainMarginWithFundingPayment position (Dec.ofInt (-msg.marginAmount)) =
        .ok remaining →
      remaining.badDebt ≠ 0 →
      removeMargin deps msg (some position) = (.error .hasBadDebt, some position) ∧
      removeMarginHandler deps msg (some position) = (.error .hasBadDebt, some position)) ∧
    (∀ remaining fc,
      deps.calcRemainMarginWithFundingPayment position (Dec.ofInt (-msg.marginAmount)) =
        .ok remaining →
      remaining.badDebt = 0 →
      deps.calcFreeCollateral
        { position with
            margin := remaining.margin,
            lastUpdateCumulativePremiumFraction :=
              remaining.latestCumulativePremiumFraction }
        remaining.fundingPayment = .ok fc →
      fc < 0 →
      removeMargin deps msg (some position) =
        (.error .insufficientFreeCollateral, some position) ∧
      removeMarginHandler deps msg (some position) =
        (.error .insufficientFreeCollateral, some position)) ∧
    (∀ (store : Option Position) (e : PerpErr),
      (removeMargin deps msg store).1 = .error e →
      (removeMargin deps msg store).2 = store) := by
  have hna : ¬ msg.marginAmount ≤ 0 := not_le.mpr ha
  refine ⟨?_, ?_, ?_⟩
  · intro remaining hrem hbd
    have hh : removeMarginHandler deps msg (some position) =
        (.error .hasBadDebt, some position) := by
      simp [removeMarginHandler, hsv, hd, hna, hpv, hv, hrem, hbd]
    exact ⟨by simp [removeMargin, hh], hh⟩
  · intro remaining fc hrem hbd hfc hneg
    have hh : removeMarginHandler deps msg (some position) =
        (.error .insufficientFreeCollateral, some position) := by
      simp [removeMarginHandler, hsv, hd, hna, hpv, hv, hrem, hbd, hfc, hneg]
    exact ⟨by simp [removeMargin, hh], hh⟩
  · intro store e herr
    cases hh : removeMarginHandler deps msg store with
    | mk r s2 =>
      cases r with
      | ok v => simp [removeMargin, hh] at herr
      | error e2 => simp [removeMargin, hh]

/-- C3 witness: removing 10 units of margin from a position holding 5
produces bad debt, the call fails with the bad debt error and the
stored position is unchanged. -/
theorem removeMargin_error_behavior_witness :
    removeMargin exampleDeps exampleMsg (some examplePosition) =
      (.error .hasBadDebt, some examplePosition) :=
  ((removeMargin_error_behavior exampleDeps exampleMsg examplePosition rfl rfl (by decide)
    rfl rfl).1 ⟨0, Dec.ofInt 5, 0, 0⟩ (by decide) (by decide)).1

/-- C9: GetMarginRatio halts processing (the Go panic, a fatal
precondition violation rather than a returned value or recoverable
error) exactly on positions of zero size: every zero size position
halts there, and for every nonzero size position that halt is
unreachable, whatever its collaborators return. -/
theorem getMarginRatio_zero_size_halts (deps : MarginRatioDeps) (position : Position) :
    (position.size = 0 → GetMarginRatio deps position = .haltZeroSize) ∧
    (position.size ≠ 0 → GetMarginRatio deps position ≠ .haltZeroSize) := by
  constructor
  · intro h0
    simp [GetMarginRatio, h0]
  · intro hne
    unfold GetMarginRatio
    rw [if_neg hne]
    cases hp : deps.getPreferencePositionNotionalAndUnrealizedPnL position with
    | error e => simp [hp]
    | ok pr =>
      obtain ⟨pnl, notional⟩ := pr
      cases hr : deps.calcRemainMarginWithFundingPayment position pnl with
      | error e => simp [hp, hr]
      | ok remaining =>
        cases hq : Dec.quo (remaining.margin - remaining.badDebt) notional with
        | none => simp [hp, hr, hq]
        | some r => simp [hp, hr, hq]

/-- C9 witness: a zero size position halts, a size one position does
not reach the zero size halt. -/
theorem getMarginRatio_zero_size_halts_witness :
    GetMarginRatio exampleMarginRatioDeps ⟨0, Dec.ofInt 5, 0⟩ = .haltZeroSize ∧
    GetMarginRatio exampleMarginRatioDeps ⟨Dec.ofInt 1, Dec.ofInt 5, 0⟩ ≠ .haltZeroSize :=
  ⟨(getMarginRatio_zero_size_halts exampleMarginRatioDeps ⟨0, Dec.ofInt 5, 0⟩).1 rfl,
   (getMarginRatio_zero_size_halts exampleMarginRatioDeps ⟨Dec.ofInt 1, Dec.ofInt 5, 0⟩).2
     (by decide)⟩
